import Mathlib

/-!
Verification of the load-balancing metrics exporter
(`exporter/loadbalancingexporter/metrics_exporter.go`).

The Go code is embedded shallowly:

* `pmetric.Metrics` becomes nested lists (`Metrics`, `ResourceMetrics`,
  `ScopeMetrics`, `Metric`); resource attributes become an association
  list of string pairs, looked up by `attrGet` (modelling
  `Resource().Attributes().Get`, whose value is read with `.Str()`).
* Go errors become `String`; a fallible call returns `Except String`
  or `Option String` (`none` = nil error).
* The shared `loadBalancer` collaborator is a record of its two pure
  observable operations `Endpoint` and `Exporter`; a resolved
  `component.Component` is an `ExporterHandle` whose `isMetrics` flag
  models the success of the `exp.(exporter.Metrics)` type assertion and
  whose `consumeMetrics` field gives the forward call result.
* `consumeMetric` is instrumented: besides the returned error it yields
  the ordered list of recorded latency samples (endpoint, success tag)
  and the number of identifiers for which the resolver
  (`Endpoint`/`Exporter`) was invoked.  Wall-clock durations are
  abstracted away; only the tags of each sample are kept.
* Go map iteration order is unspecified; the embedding fixes insertion
  order for the routing-identifier set, one admissible behaviour.
-/

namespace LB

/-- A single metric entry; only its name is consulted by this code. -/
structure Metric where
  name : String
deriving Repr, DecidableEq

/-- A scope-level group of metrics (`ScopeMetrics`). -/
structure ScopeMetrics where
  metrics : List Metric
deriving Repr, DecidableEq

/-- A resource-level group (`ResourceMetrics`): resource attributes plus
scope-level groups. -/
structure ResourceMetrics where
  attributes : List (String × String)
  scopeMetrics : List ScopeMetrics
deriving Repr, DecidableEq

/-- A metrics payload (`pmetric.Metrics`): a list of resource groups. -/
structure Metrics where
  resourceMetrics : List ResourceMetrics
deriving Repr, DecidableEq

/-- Attribute lookup, modelling `Attributes().Get(key)`: first matching
key wins, `none` when the key is absent. -/
def attrGet (attrs : List (String × String)) (key : String) : Option String :=
  match attrs with
  | [] => none
  | (k, v) :: rest => if k = key then some v else attrGet rest key

/-- The routing modes referenced by this file: `svcRouting` is the
spec's `ByServiceName`; `traceIDRouting` is the constructor default kept
for routing keys `""` and `"_metric_ID"`, i.e. the spec's `Default`
mode. -/
inductive routingKey where
  | traceIDRouting
  | svcRouting
deriving Repr, DecidableEq

/-- Accumulating loop of the `svcRouting` branch of
`routingIdentifiersFromMetrics`: walk every resource group, require a
`service.name` attribute on each, and collect the distinct values
(`ids[svc.Str()] = true` on a Go map, here insertion-ordered without
duplicates). -/
def svcRoutingIds (rs : List ResourceMetrics) (ids : List String) :
    Except String (List String) :=
  match rs with
  | [] => .ok ids
  | r :: rest =>
    match attrGet r.attributes "service.name" with
    | none => .error "unable to get metric name"
    | some svc => svcRoutingIds rest (if svc ∈ ids then ids else ids ++ [svc])

/-- Embedding of `routingIdentifiersFromMetrics`: the three ordered
emptiness checks on the first resource / first scope, then either the
service-name walk (`svcRouting`) or the singleton set holding the first
metric's name. -/
def routingIdentifiersFromMetrics (md : Metrics) (key : routingKey) :
    Except String (List String) :=
  match md.resourceMetrics with
  | [] => .error "empty resource metrics"
  | r0 :: rtail =>
    match r0.scopeMetrics with
    | [] => .error "empty scope metrics"
    | s0 :: _ =>
      match s0.metrics with
      | [] => .error "empty metrics"
      | m0 :: _ =>
        match key with
        | .svcRouting => svcRoutingIds (r0 :: rtail) []
        | .traceIDRouting => .ok [m0.name]

/-- A resolved exporter handle (`component.Component`): `isMetrics`
models whether the `exp.(exporter.Metrics)` type assertion succeeds, and
`consumeMetrics` the forward call's error result. -/
structure ExporterHandle where
  isMetrics : Bool
  consumeMetrics : Metrics → Option String

/-- The shared load balancer collaborator, by its two operations used
here: `Endpoint` maps an identifier's bytes to an endpoint address, and
`Exporter` maps an endpoint to a handle or fails. -/
structure loadBalancer where
  Endpoint : String → String
  Exporter : String → Except String ExporterHandle

/-- Error produced by the failed type assertion in `consumeMetric`
(the `%T` of the Go message is abstracted away). -/
def capabilityMismatchError : String :=
  "unable to export metrics, unexpected exporter type: expected exporter.Metrics"

/-- Observable outcome of one `consumeMetric` call: the recorded latency
samples in order (endpoint, success tag), the number of identifiers for
which the resolver was consulted, and the returned error (`none` = nil). -/
structure DispatchTrace where
  samples : List (String × Bool)
  resolverCalls : Nat
  result : Option String
deriving Repr, DecidableEq

/-- The identifier loop of `consumeMetric`, carrying the Go `err`
variable: each iteration resolves the endpoint and exporter (abort and
return on resolution failure or failed type assertion), forwards the
whole sub-batch, records one latency sample tagged with the endpoint and
whether the forward succeeded, and continues; the loop's final `err`
value is returned. -/
def dispatchIds (lb : loadBalancer) (md : Metrics) :
    List String → Option String → DispatchTrace
  | [], err => ⟨[], 0, err⟩
  | rid :: rest, _ =>
    let endpoint := lb.Endpoint rid
    match lb.Exporter endpoint with
    | .error e => ⟨[], 1, some e⟩
    | .ok exp =>
      if exp.isMetrics then
        let ferr := exp.consumeMetrics md
        let t := dispatchIds lb md rest ferr
        ⟨(endpoint, ferr == none) :: t.samples, t.resolverCalls + 1, t.result⟩
      else
        ⟨[], 1, some capabilityMismatchError⟩

/-- Embedding of `consumeMetric` (dispatch of one sub-batch): extract
the routing identifiers (propagating the extraction error with no
resolver call), then run the identifier loop with `err` initially nil. -/
def consumeMetric (lb : loadBalancer) (key : routingKey) (md : Metrics) :
    DispatchTrace :=
  match routingIdentifiersFromMetrics md key with
  | .error e => ⟨[], 0, some e⟩
  | .ok ids => dispatchIds lb md ids none

/-- Modelled from the spec: `batchpersignal.SplitMetrics` is not under
src; per the spec it partitions a payload into independent sub-batches,
one per top-level resource group. -/
def splitMetrics (md : Metrics) : List Metrics :=
  md.resourceMetrics.map (fun r => ⟨[r]⟩)

/-- Modelled from the spec: `go.uber.org/multierr.Append` is not under
src; an aggregate error is the list of combined non-nil errors, nil
(`[]`) iff none was appended. -/
def multierrAppend (errs : List String) (e : Option String) : List String :=
  errs ++ e.toList

/-- Embedding of `ConsumeMetrics`: split the payload, dispatch every
sub-batch in turn regardless of earlier failures, and fold all non-nil
errors into one aggregate. -/
def ConsumeMetrics (lb : loadBalancer) (key : routingKey) (md : Metrics) :
    List String :=
  (splitMetrics md).foldl
    (fun errs b => multierrAppend errs (consumeMetric lb key b).result) []

/-- The exporter state (`metricExporterImp`): the bound load balancer
and routing mode fixed at construction, the `stopped` flag and the
`sync.WaitGroup` counter `shutdownWg`. -/
structure metricExporterImp where
  lb : loadBalancer
  key : routingKey
  stopped : Bool
  shutdownWg : Nat

/-- Embedding of `newMetricsExporter`: the load-balancer construction
result is passed in (its factory lives outside this file); the routing
key string is mapped exactly as the Go `switch` does, starting from the
`traceIDRouting` default. -/
def newMetricsExporter (lbResult : Except String loadBalancer)
    (routingKeyCfg : String) : Except String metricExporterImp :=
  match lbResult with
  | .error err => .error err
  | .ok lb =>
    if routingKeyCfg = "service" then .ok ⟨lb, .svcRouting, false, 0⟩
    else if routingKeyCfg = "_metric_ID" ∨ routingKeyCfg = "" then
      .ok ⟨lb, .traceIDRouting, false, 0⟩
    else .error ("unsupported routing_key: " ++ routingKeyCfg)

/-- Embedding of the `ConsumeMetrics` method with its receiver state
made explicit: the Go body never touches `stopped` or `shutdownWg`
(there is no `shutdownWg.Add`/`Done` pair), so the state is returned
unchanged alongside the aggregate error. -/
def metricExporterImp.ConsumeMetricsSt (e : metricExporterImp)
    (md : Metrics) : metricExporterImp × List String :=
  (e, ConsumeMetrics e.lb e.key md)

/-- Embedding of `Shutdown`: sets `stopped` and returns nil.  The Go
body also calls `e.shutdownWg.Wait()`, which blocks until the counter
reaches zero — since nothing ever increments the counter this is a
no-op, reflected here by leaving `shutdownWg` untouched; no
load-balancer release is performed. -/
def metricExporterImp.Shutdown (e : metricExporterImp) :
    metricExporterImp × Option String :=
  ({ e with stopped := true }, none)

/-- Resolution outcome used to phrase the theorems: `true` iff the
identifier resolves to a handle that passes the metrics type assertion. -/
def resolvesMetrics (lb : loadBalancer) (rid : String) : Bool :=
  match lb.Exporter (lb.Endpoint rid) with
  | .ok exp => exp.isMetrics
  | .error _ => false

/-- The forward result an identifier would observe: the resolution error
if resolution fails, otherwise the handle's forward result on `md`. -/
def forwardResult (lb : loadBalancer) (md : Metrics) (rid : String) :
    Option String :=
  match lb.Exporter (lb.Endpoint rid) with
  | .ok exp => exp.consumeMetrics md
  | .error e => some e

/-- Concrete metric used by the example payloads. -/
def mA : Metric := ⟨"cpu"⟩

/-- Concrete scope group holding one metric. -/
def sA : ScopeMetrics := ⟨[mA]⟩

/-- Resource with `service.name = "a"` and one non-empty scope. -/
def rA : ResourceMetrics := ⟨[("service.name", "a")], [sA]⟩

/-- Resource with `service.name = "b"` and one non-empty scope. -/
def rB : ResourceMetrics := ⟨[("service.name", "b")], [sA]⟩

/-- Two-resource payload with service names `"a"` and `"b"`. -/
def mdAB : Metrics := ⟨[rA, rB]⟩

/-- Load balancer whose forward call fails exactly on endpoint `"a"`. -/
def lbAB : loadBalancer :=
  ⟨fun s => s,
   fun e => .ok ⟨true, fun _ => if e = "a" then some "forward failed" else none⟩⟩

/-- Load balancer that cannot resolve any exporter. -/
def lbTrivial : loadBalancer := ⟨fun _ => "ep", fun _ => .error "no exporter"⟩

/-- Load balancer whose exporter resolution always fails. -/
def lbErr : loadBalancer := ⟨fun s => s, fun _ => .error "resolver down"⟩

/-- Load balancer whose resolved handle fails the metrics type assertion. -/
def lbMismatch : loadBalancer := ⟨fun s => s, fun _ => .ok ⟨false, fun _ => none⟩⟩

/-- First resource of the C6 example: two metrics in the first scope,
plus a second, empty scope. -/
def mdC6r0 : ResourceMetrics := ⟨[], [⟨[⟨"cpu"⟩, ⟨"mem"⟩]⟩, ⟨[]⟩]⟩

/-- Payload whose first metric is named `"cpu"`, with extra metrics,
an extra empty scope and an extra scope-free resource. -/
def mdC6 : Metrics := ⟨[mdC6r0, ⟨[], []⟩]⟩

/-- Payload whose first resource is well-formed while the second has
zero scope groups. -/
def mdC10 : Metrics := ⟨[rA, ⟨[], []⟩]⟩

example : routingIdentifiersFromMetrics mdAB .svcRouting = .ok ["a", "b"] := rfl

example : consumeMetric lbAB .svcRouting mdAB = ⟨[("a", false), ("b", true)], 2, none⟩ := rfl

example : ConsumeMetrics lbAB .svcRouting mdAB = ["forward failed"] := rfl

example : routingIdentifiersFromMetrics mdAB .traceIDRouting = .ok ["cpu"] := rfl

/-- The error value returned by the identifier loop when no resolution
or capability failure occurs: the forward result of the last identifier,
or the carried `err` when the list is empty. -/
def lastForwardResult (lb : loadBalancer) (md : Metrics) (ids : List String)
    (err : Option String) : Option String :=
  match ids.getLast? with
  | none => err
  | some rid => forwardResult lb md rid

theorem mem_insertId (v s : String) (acc : List String) :
    (s ∈ if v ∈ acc then acc else acc ++ [v]) ↔ s ∈ acc ∨ s = v := by
  by_cases hv : v ∈ acc
  · rw [if_pos hv]
    exact ⟨Or.inl, fun h => h.elim id (fun e => e ▸ hv)⟩
  · rw [if_neg hv]
    simp

theorem svcRoutingIds_ok_mem (rs : List ResourceMetrics) :
    ∀ acc out : List String, svcRoutingIds rs acc = .ok out → ∀ s : String,
    (s ∈ out ↔ s ∈ acc ∨ ∃ r ∈ rs, attrGet r.attributes "service.name" = some s) := by
  induction rs with
  | nil =>
    intro acc out h s
    simp only [svcRoutingIds, Except.ok.injEq] at h
    subst h
    simp
  | cons r rest ih =>
    intro acc out h s
    simp only [svcRoutingIds] at h
    cases hattr : attrGet r.attributes "service.name" with
    | none => rw [hattr] at h; simp at h
    | some v =>
      rw [hattr] at h
      have hmem := ih _ _ h s
      rw [mem_insertId] at hmem
      rw [hmem]
      constructor
      · rintro ((hs | rfl) | ⟨r2, hr2, hget⟩)
        · exact Or.inl hs
        · exact Or.inr ⟨r, List.mem_cons_self r rest, hattr⟩
        · exact Or.inr ⟨r2, List.mem_cons_of_mem _ hr2, hget⟩
      · rintro (hs | ⟨r2, hr2, hget⟩)
        · exact Or.inl (Or.inl hs)
        · rcases List.mem_cons.mp hr2 with rfl | hmem2
          · rw [hattr] at hget
            exact Or.inl (Or.inr (Option.some.inj hget).symm)
          · exact Or.inr ⟨r2, hmem2, hget⟩

theorem svcRoutingIds_ok_nodup (rs : List ResourceMetrics) :
    ∀ acc out : List String, svcRoutingIds rs acc = .ok out →
    acc.Nodup → out.Nodup := by
  induction rs with
  | nil =>
    intro acc out h hacc
    simp only [svcRoutingIds, Except.ok.injEq] at h
    subst h
    exact hacc
  | cons r rest ih =>
    intro acc out h hacc
    simp only [svcRoutingIds] at h
    cases hattr : attrGet r.attributes "service.name" with
    | none => rw [hattr] at h; simp at h
    | some v =>
      rw [hattr] at h
      refine ih _ _ h ?_
      by_cases hv : v ∈ acc
      · rwa [if_pos hv]
      · rw [if_neg hv]
        exact hacc.append (List.nodup_singleton v)
          (List.disjoint_singleton.mpr hv)

theorem svcRoutingIds_missing (rs : List ResourceMetrics) :
    ∀ acc : List String,
    (∃ r ∈ rs, attrGet r.attributes "service.name" = none) →
    svcRoutingIds rs acc = .error "unable to get metric name" := by
  induction rs with
  | nil => intro acc h; simp at h
  | cons r rest ih =>
    intro acc h
    rcases h with ⟨r2, hr2, hget⟩
    rcases List.mem_cons.mp hr2 with rfl | hmem
    · simp [svcRoutingIds, hget]
    · cases hattr : attrGet r.attributes "service.name" with
      | none => simp [svcRoutingIds, hattr]
      | some v =>
        simp only [svcRoutingIds, hattr]
        exact ih _ ⟨r2, hmem, hget⟩

theorem svcRoutingIds_all_some (rs : List ResourceMetrics) :
    ∀ acc : List String,
    (∀ r ∈ rs, ∃ v, attrGet r.attributes "service.name" = some v) →
    ∃ out, svcRoutingIds rs acc = .ok out := by
  induction rs with
  | nil => intro acc _; exact ⟨acc, rfl⟩
  | cons r rest ih =>
    intro acc h
    rcases h r (List.mem_cons_self r rest) with ⟨v, hv⟩
    rcases ih (if v ∈ acc then acc else acc ++ [v])
        (fun r2 hr2 => h r2 (List.mem_cons_of_mem _ hr2)) with ⟨out, hout⟩
    refine ⟨out, ?_⟩
    simp only [svcRoutingIds, hv]
    exact hout

theorem dispatchIds_samples (lb : loadBalancer) (md : Metrics) :
    ∀ (ids : List String) (err : Option String),
    (dispatchIds lb md ids err).samples
      = (ids.takeWhile (fun rid => resolvesMetrics lb rid)).map
          (fun rid => (lb.Endpoint rid, forwardResult lb md rid == none)) := by
  intro ids
  induction ids with
  | nil => intro err; rfl
  | cons rid rest ih =>
    intro err
    cases hres : lb.Exporter (lb.Endpoint rid) with
    | error e =>
      have hr : resolvesMetrics lb rid = false := by
        simp [resolvesMetrics, hres]
      simp [dispatchIds, hres, hr, List.takeWhile_cons]
    | ok exp =>
      cases hm : exp.isMetrics with
      | false =>
        have hr : resolvesMetrics lb rid = false := by
          simp [resolvesMetrics, hres, hm]
        simp [dispatchIds, hres, hm, hr, List.takeWhile_cons]
      | true =>
        have hr : resolvesMetrics lb rid = true := by
          simp [resolvesMetrics, hres, hm]
        have hf : forwardResult lb md rid = exp.consumeMetrics md := by
          simp [forwardResult, hres]
        simp [dispatchIds, hres, hm, hr, hf, List.takeWhile_cons, ih]

theorem dispatchIds_result_of_resolves (lb : loadBalancer) (md : Metrics) :
    ∀ (ids : List String) (err : Option String),
    (∀ rid ∈ ids, resolvesMetrics lb rid = true) →
    (dispatchIds lb md ids err).result = lastForwardResult lb md ids err := by
  intro ids
  induction ids with
  | nil => intro err _; rfl
  | cons rid rest ih =>
    intro err h
    have hr : resolvesMetrics lb rid = true := h rid (List.mem_cons_self rid rest)
    cases hres : lb.Exporter (lb.Endpoint rid) with
    | error e => simp [resolvesMetrics, hres] at hr
    | ok exp =>
      have hm : exp.isMetrics = true := by
        simpa [resolvesMetrics, hres] using hr
      have htail := ih (exp.consumeMetrics md)
        (fun r2 h2 => h r2 (List.mem_cons_of_mem _ h2))
      simp only [dispatchIds, hres, hm, if_pos]
      rw [htail]
      cases rest with
      | nil => simp [lastForwardResult, forwardResult, hres]
      | cons x xs =>
        simp only [lastForwardResult, List.getLast?_cons_cons]
        cases hL : (x :: xs).getLast? with
        | none => simp at hL
        | some y => rfl

theorem dispatchIds_calls_pos (lb : loadBalancer) (md : Metrics)
    (rid : String) (rest : List String) (err : Option String) :
    1 ≤ (dispatchIds lb md (rid :: rest) err).resolverCalls := by
  cases hres : lb.Exporter (lb.Endpoint rid) with
  | error e => simp [dispatchIds, hres]
  | ok exp =>
    cases hm : exp.isMetrics with
    | false => simp [dispatchIds, hres, hm]
    | true => simp [dispatchIds, hres, hm]

theorem foldl_multierrAppend (f : Metrics → Option String) :
    ∀ (l : List Metrics) (errs : List String),
    l.foldl (fun es b => multierrAppend es (f b)) errs
      = errs ++ (l.map f).reduceOption := by
  intro l
  induction l with
  | nil => intro errs; simp [List.reduceOption]
  | cons b rest ih =>
    intro errs
    simp only [List.foldl_cons, List.map_cons]
    rw [ih]
    cases hf : f b with
    | none =>
      simp [multierrAppend, hf, List.reduceOption_cons_of_none]
    | some e =>
      simp [multierrAppend, hf, List.reduceOption_cons_of_some,
        List.append_assoc]

theorem reduceOption_nil_iff (l : List (Option String)) :
    l.reduceOption = [] ↔ ∀ x ∈ l, x = none := by
  induction l with
  | nil => simp [List.reduceOption]
  | cons o rest ih =>
    cases o with
    | none => simp [List.reduceOption_cons_of_none, ih]
    | some e => simp [List.reduceOption_cons_of_some]

theorem svcRoutingIds_ok_or_missing (rs : List ResourceMetrics) :
    ∀ acc : List String, (∃ out, svcRoutingIds rs acc = .ok out)
      ∨ svcRoutingIds rs acc = .error "unable to get metric name" := by
  induction rs with
  | nil => intro acc; exact Or.inl ⟨acc, rfl⟩
  | cons r rest ih =>
    intro acc
    cases hattr : attrGet r.attributes "service.name" with
    | none => right; simp [svcRoutingIds, hattr]
    | some v =>
      simp only [svcRoutingIds, hattr]
      exact ih _

/-- C5: under `ByServiceName` mode, for every sub-batch passing the
three emptiness validations, when every resource carries a
`service.name` attribute the extraction returns exactly the set of its
distinct values over every resource-level group (membership equivalence
plus no duplicates), and when any single resource lacks the attribute
the extraction returns an error and no partial identifier set. -/
theorem C5_service_name_extraction (md : Metrics) (r0 : ResourceMetrics)
    (rtail : List ResourceMetrics) (s0 : ScopeMetrics)
    (stail : List ScopeMetrics) (m0 : Metric) (mtail : List Metric)
    (hrs : md.resourceMetrics = r0 :: rtail)
    (hsc : r0.scopeMetrics = s0 :: stail)
    (hm : s0.metrics = m0 :: mtail) :
    ((∀ r ∈ md.resourceMetrics, ∃ v, attrGet r.attributes "service.name" = some v) →
      ∃ ids, routingIdentifiersFromMetrics md .svcRouting = .ok ids ∧ ids.Nodup ∧
        ∀ s, (s ∈ ids ↔ ∃ r ∈ md.resourceMetrics,
          attrGet r.attributes "service.name" = some s))
    ∧ ((∃ r ∈ md.resourceMetrics, attrGet r.attributes "service.name" = none) →
      routingIdentifiersFromMetrics md .svcRouting
        = .error "unable to get metric name") := by
  have hunfold : routingIdentifiersFromMetrics md .svcRouting
      = svcRoutingIds (r0 :: rtail) [] := by
    simp [routingIdentifiersFromMetrics, hrs, hsc, hm]
  constructor
  · intro hall
    rw [hrs] at hall
    rcases svcRoutingIds_all_some _ [] hall with ⟨out, hout⟩
    refine ⟨out, hunfold.trans hout,
      svcRoutingIds_ok_nodup _ _ _ hout List.nodup_nil, ?_⟩
    intro s
    have hc := svcRoutingIds_ok_mem _ _ _ hout s
    simpa [hrs] using hc
  · intro hmissing
    rw [hrs] at hmissing
    exact hunfold.trans (svcRoutingIds_missing _ [] hmissing)

/-- Witness for C5: on the two-resource payload with service names
`"a"` and `"b"`, extraction yields exactly that duplicate-free set. -/
theorem C5_service_name_extraction_witness :
    ∃ ids, routingIdentifiersFromMetrics mdAB .svcRouting = .ok ids ∧ ids.Nodup ∧
      ∀ s, (s ∈ ids ↔ ∃ r ∈ mdAB.resourceMetrics,
        attrGet r.attributes "service.name" = some s) := by
  have hall : ∀ r ∈ mdAB.resourceMetrics,
      ∃ v, attrGet r.attributes "service.name" = some v := by
    intro r hr
    have hcases : r = rA ∨ r = rB := by simpa [mdAB] using hr
    rcases hcases with rfl | rfl
    · exact ⟨"a", rfl⟩
    · exact ⟨"b", rfl⟩
  exact (C5_service_name_extraction mdAB rA [rB] sA [] mA [] rfl rfl rfl).1 hall

/-- C6: under `Default` mode (the code's `traceIDRouting` value), for
every sub-batch passing the three emptiness validations the extraction
returns the single-element set holding the name of the first metric of
the first scope of the first resource group; the result depends on no
other metric, scope, or resource. -/
theorem C6_default_extraction (md : Metrics) (r0 : ResourceMetrics)
    (rtail : List ResourceMetrics) (s0 : ScopeMetrics)
    (stail : List ScopeMetrics) (m0 : Metric) (mtail : List Metric)
    (hrs : md.resourceMetrics = r0 :: rtail)
    (hsc : r0.scopeMetrics = s0 :: stail)
    (hm : s0.metrics = m0 :: mtail) :
    routingIdentifiersFromMetrics md .traceIDRouting = .ok [m0.name] := by
  simp [routingIdentifiersFromMetrics, hrs, hsc, hm]

/-- Witness for C6: a payload with a second metric, a second (empty)
scope and a second (scope-free) resource still yields only the first
metric's name. -/
theorem C6_default_extraction_witness :
    routingIdentifiersFromMetrics mdC6 .traceIDRouting = .ok ["cpu"] :=
  C6_default_extraction mdC6 mdC6r0 [⟨[], []⟩] ⟨[⟨"cpu"⟩, ⟨"mem"⟩]⟩ [⟨[]⟩]
    ⟨"cpu"⟩ [⟨"mem"⟩] rfl rfl rfl

/-- C7: a sub-batch with zero resource groups, a first resource group
with zero scope groups, or a first scope with zero metrics fails
extraction with one of three pairwise distinct errors (checked in that
order, under every routing mode), and `consumeMetric` returns that
error with zero resolver calls and no latency samples. -/
theorem C7_empty_validation (lb : loadBalancer) (key : routingKey) (md : Metrics) :
    (md.resourceMetrics = [] →
      routingIdentifiersFromMetrics md key = .error "empty resource metrics" ∧
      consumeMetric lb key md = ⟨[], 0, some "empty resource metrics"⟩)
    ∧ (∀ (r0 : ResourceMetrics) (rtail : List ResourceMetrics),
      md.resourceMetrics = r0 :: rtail → r0.scopeMetrics = [] →
      routingIdentifiersFromMetrics md key = .error "empty scope metrics" ∧
      consumeMetric lb key md = ⟨[], 0, some "empty scope metrics"⟩)
    ∧ (∀ (r0 : ResourceMetrics) (rtail : List ResourceMetrics)
      (s0 : ScopeMetrics) (stail : List ScopeMetrics),
      md.resourceMetrics = r0 :: rtail → r0.scopeMetrics = s0 :: stail →
      s0.metrics = [] →
      routingIdentifiersFromMetrics md key = .error "empty metrics" ∧
      consumeMetric lb key md = ⟨[], 0, some "empty metrics"⟩)
    ∧ ("empty resource metrics" ≠ "empty scope metrics"
      ∧ "empty resource metrics" ≠ "empty metrics"
      ∧ "empty scope metrics" ≠ "empty metrics") := by
  refine ⟨?_, ?_, ?_, by decide, by decide, by decide⟩
  · intro h0
    have h1 : routingIdentifiersFromMetrics md key
        = .error "empty resource metrics" := by
      simp [routingIdentifiersFromMetrics, h0]
    exact ⟨h1, by simp [consumeMetric, h1]⟩
  · intro r0 rtail h0 hsc
    have h1 : routingIdentifiersFromMetrics md key
        = .error "empty scope metrics" := by
      simp [routingIdentifiersFromMetrics, h0, hsc]
    exact ⟨h1, by simp [consumeMetric, h1]⟩
  · intro r0 rtail s0 stail h0 hsc hm
    have h1 : routingIdentifiersFromMetrics md key
        = .error "empty metrics" := by
      simp [routingIdentifiersFromMetrics, h0, hsc, hm]
    exact ⟨h1, by simp [consumeMetric, h1]⟩

/-- Witness for C7 at three concrete empty sub-batches, one per check. -/
theorem C7_empty_validation_witness :
    consumeMetric lbTrivial .svcRouting ⟨[]⟩
      = ⟨[], 0, some "empty resource metrics"⟩
    ∧ consumeMetric lbTrivial .svcRouting ⟨[⟨[], []⟩]⟩
      = ⟨[], 0, some "empty scope metrics"⟩
    ∧ consumeMetric lbTrivial .traceIDRouting ⟨[⟨[], [⟨[]⟩]⟩]⟩
      = ⟨[], 0, some "empty metrics"⟩ := by
  refine ⟨((C7_empty_validation lbTrivial .svcRouting ⟨[]⟩).1 rfl).2, ?_, ?_⟩
  · exact ((C7_empty_validation lbTrivial .svcRouting ⟨[⟨[], []⟩]⟩).2.1
      ⟨[], []⟩ [] rfl rfl).2
  · exact ((C7_empty_validation lbTrivial .traceIDRouting ⟨[⟨[], [⟨[]⟩]⟩]⟩).2.2.1
      ⟨[], [⟨[]⟩]⟩ [] ⟨[]⟩ [] rfl rfl rfl).2

/-- C10: the scope- and metric-level emptiness checks inspect only the
first resource group — whenever the first resource has at least one
scope with at least one metric, none of the three emptiness errors is
produced (under either mode, and whatever the remaining resource
groups contain), and under `Default` mode extraction succeeds and
dispatch proceeds to at least one resolver call. -/
theorem C10_first_resource_only (lb : loadBalancer) (key : routingKey)
    (md : Metrics) (r0 : ResourceMetrics) (rtail : List ResourceMetrics)
    (s0 : ScopeMetrics) (stail : List ScopeMetrics) (m0 : Metric)
    (mtail : List Metric)
    (hrs : md.resourceMetrics = r0 :: rtail)
    (hsc : r0.scopeMetrics = s0 :: stail)
    (hm : s0.metrics = m0 :: mtail) :
    routingIdentifiersFromMetrics md key ≠ .error "empty resource metrics"
    ∧ routingIdentifiersFromMetrics md key ≠ .error "empty scope metrics"
    ∧ routingIdentifiersFromMetrics md key ≠ .error "empty metrics"
    ∧ (key = .traceIDRouting →
        routingIdentifiersFromMetrics md key = .ok [m0.name]
        ∧ 1 ≤ (consumeMetric lb key md).resolverCalls) := by
  cases key with
  | traceIDRouting =>
    have h1 : routingIdentifiersFromMetrics md .traceIDRouting = .ok [m0.name] :=
      C6_default_extraction md r0 rtail s0 stail m0 mtail hrs hsc hm
    refine ⟨by simp [h1], by simp [h1], by simp [h1], fun _ => ⟨h1, ?_⟩⟩
    simp only [consumeMetric, h1]
    exact dispatchIds_calls_pos lb md m0.name [] none
  | svcRouting =>
    have hunfold : routingIdentifiersFromMetrics md .svcRouting
        = svcRoutingIds (r0 :: rtail) [] := by
      simp [routingIdentifiersFromMetrics, hrs, hsc, hm]
    rcases svcRoutingIds_ok_or_missing (r0 :: rtail) [] with ⟨out, hout⟩ | hmiss
    · rw [hunfold, hout]
      refine ⟨by simp, by simp, by simp, fun hk => by simp at hk⟩
    · rw [hunfold, hmiss]
      refine ⟨by simp, by simp, by simp, fun hk => by simp at hk⟩

/-- Witness for C10: second resource group has zero scopes, yet the
first resource's metric drives a successful extraction and a dispatch
with a resolver call. -/
theorem C10_first_resource_only_witness :
    routingIdentifiersFromMetrics mdC10 .traceIDRouting = .ok ["cpu"]
    ∧ 1 ≤ (consumeMetric lbAB .traceIDRouting mdC10).resolverCalls := by
  have h := C10_first_resource_only lbAB .traceIDRouting mdC10 rA
    [⟨[], []⟩] sA [] mA [] rfl rfl rfl
  exact ⟨(h.2.2.2 rfl).1, (h.2.2.2 rfl).2⟩

/-- C1 fails on the code: on the two-identifier sub-batch the forward
for `"a"` fails (first sample's success tag is false), so an
identifier's dispatch failed and that failure was the last error
encountered, yet `consumeMetric` returns nil — the later successful
forward for `"b"` overwrote the `err` variable. -/
theorem C1_last_error_counterexample :
    (consumeMetric lbAB .svcRouting mdAB).samples = [("a", false), ("b", true)]
    ∧ (consumeMetric lbAB .svcRouting mdAB).result = none := ⟨rfl, rfl⟩

/-- C1 amended: when every identifier resolves to a metrics-capable
exporter, `consumeMetric` returns the forward result of the final
identifier processed (nil iff that last forward succeeded, earlier
forward errors being overwritten); resolution and capability failures
are instead returned immediately. -/
theorem C1_final_forward_error (lb : loadBalancer) (key : routingKey)
    (md : Metrics) (ids : List String)
    (h : routingIdentifiersFromMetrics md key = .ok ids)
    (hres : ∀ rid ∈ ids, resolvesMetrics lb rid = true) :
    (consumeMetric lb key md).result = lastForwardResult lb md ids none := by
  simp only [consumeMetric, h]
  exact dispatchIds_result_of_resolves lb md ids none hres

/-- Witness for C1 amended: the last identifier's forward succeeded, so
nil is returned (though the first identifier's forward failed). -/
theorem C1_final_forward_error_witness :
    (consumeMetric lbAB .svcRouting mdAB).result = none := by
  have hres : ∀ rid ∈ ["a", "b"], resolvesMetrics lbAB rid = true := by
    intro rid hr
    rcases List.mem_cons.mp hr with rfl | hr2
    · rfl
    · rcases List.mem_cons.mp hr2 with rfl | hr3
      · rfl
      · simp at hr3
  exact (C1_final_forward_error lbAB .svcRouting mdAB ["a", "b"] rfl hres).trans rfl

/-- C3 fails on the code: identifier `"a"` is the first whose dispatch
step (the forward call) fails, yet identifier `"b"` is still resolved
(two resolver calls), forwarded, and its latency sample recorded. -/
theorem C3_failfast_counterexample :
    (consumeMetric lbAB .svcRouting mdAB).resolverCalls = 2
    ∧ (consumeMetric lbAB .svcRouting mdAB).samples.length = 2 := ⟨rfl, rfl⟩

/-- C3 amended: within a sub-batch, an exporter resolution failure or a
capability mismatch aborts the remaining identifiers (no further
samples, a single resolver call, the error returned immediately),
whereas a forward failure does not abort: its latency sample is
recorded and the loop continues with the remaining identifiers. -/
theorem C3_abort_behaviour (lb : loadBalancer) (md : Metrics) (rid : String)
    (rest : List String) (err : Option String) :
    (∀ e, lb.Exporter (lb.Endpoint rid) = .error e →
      dispatchIds lb md (rid :: rest) err = ⟨[], 1, some e⟩)
    ∧ (∀ exp, lb.Exporter (lb.Endpoint rid) = .ok exp → exp.isMetrics = false →
      dispatchIds lb md (rid :: rest) err = ⟨[], 1, some capabilityMismatchError⟩)
    ∧ (∀ exp, lb.Exporter (lb.Endpoint rid) = .ok exp → exp.isMetrics = true →
      dispatchIds lb md (rid :: rest) err =
        ⟨(lb.Endpoint rid, exp.consumeMetrics md == none)
            :: (dispatchIds lb md rest (exp.consumeMetrics md)).samples,
          (dispatchIds lb md rest (exp.consumeMetrics md)).resolverCalls + 1,
          (dispatchIds lb md rest (exp.consumeMetrics md)).result⟩) := by
  refine ⟨?_, ?_, ?_⟩
  · intro e he
    simp [dispatchIds, he]
  · intro exp he hm
    simp [dispatchIds, he, hm]
  · intro exp he hm
    simp [dispatchIds, he, hm]

/-- Witness for C3 amended: resolution failure and capability mismatch
abort at the first identifier; a forward failure leaves the loop
running, ending with both samples recorded. -/
theorem C3_abort_behaviour_witness :
    dispatchIds lbErr mdAB ["a", "b"] none = ⟨[], 1, some "resolver down"⟩
    ∧ dispatchIds lbMismatch mdAB ["a", "b"] none
      = ⟨[], 1, some capabilityMismatchError⟩
    ∧ dispatchIds lbAB mdAB ["a", "b"] none
      = ⟨[("a", false), ("b", true)], 2, none⟩ := by
  refine ⟨(C3_abort_behaviour lbErr mdAB "a" ["b"] none).1 "resolver down" rfl,
    (C3_abort_behaviour lbMismatch mdAB "a" ["b"] none).2.1 _ rfl rfl, ?_⟩
  exact ((C3_abort_behaviour lbAB mdAB "a" ["b"] none).2.2 _ rfl rfl).trans rfl

/-- C9: per dispatch attempt, exactly one latency sample is recorded for
every identifier whose forward call is reached (the longest prefix of
the identifier list resolving to metrics-capable exporters), tagged with
the resolved endpoint and a success flag true iff the forward returned
no error — recorded on success and failure alike. -/
theorem C9_latency_samples (lb : loadBalancer) (key : routingKey)
    (md : Metrics) (ids : List String)
    (h : routingIdentifiersFromMetrics md key = .ok ids) :
    (consumeMetric lb key md).samples
      = (ids.takeWhile (fun rid => resolvesMetrics lb rid)).map
          (fun rid => (lb.Endpoint rid, forwardResult lb md rid == none)) := by
  simp only [consumeMetric, h]
  exact dispatchIds_samples lb md ids none

/-- Witness for C9: one sample per identifier, the failed forward tagged
false and the successful one tagged true. -/
theorem C9_latency_samples_witness :
    (consumeMetric lbAB .svcRouting mdAB).samples
      = [("a", false), ("b", true)] :=
  (C9_latency_samples lbAB .svcRouting mdAB ["a", "b"] rfl).trans rfl

/-- C2: ConsumeMetrics dispatches every sub-batch produced by the
splitter regardless of earlier failures (the aggregate is exactly the
collected non-nil results over the whole sub-batch list) and returns the
nil aggregate iff every sub-batch dispatch returned no error. -/
theorem C2_aggregate_errors (lb : loadBalancer) (key : routingKey)
    (md : Metrics) :
    ConsumeMetrics lb key md
      = ((splitMetrics md).map
          (fun b => (consumeMetric lb key b).result)).reduceOption
    ∧ (ConsumeMetrics lb key md = []
      ↔ ∀ b ∈ splitMetrics md, (consumeMetric lb key b).result = none) := by
  have h1 : ConsumeMetrics lb key md
      = ((splitMetrics md).map
          (fun b => (consumeMetric lb key b).result)).reduceOption := by
    simpa [ConsumeMetrics] using
      foldl_multierrAppend (fun b => (consumeMetric lb key b).result)
        (splitMetrics md) []
  refine ⟨h1, ?_⟩
  rw [h1, reduceOption_nil_iff]
  constructor
  · intro hall b hb
    exact hall _ (List.mem_map_of_mem _ hb)
  · rintro hall x hx
    rcases List.mem_map.mp hx with ⟨b, hb, rfl⟩
    exact hall b hb

/-- Witness for C2: of the two sub-batches, the first fails and the
second succeeds; both were attempted and the aggregate is non-nil. -/
theorem C2_aggregate_errors_witness :
    ConsumeMetrics lbAB .svcRouting mdAB = ["forward failed"]
    ∧ ConsumeMetrics lbAB .svcRouting mdAB ≠ [] := by
  have h1 : ConsumeMetrics lbAB .svcRouting mdAB = ["forward failed"] :=
    (C2_aggregate_errors lbAB .svcRouting mdAB).1.trans rfl
  exact ⟨h1, by simp [h1]⟩

/-- C8: construction maps routing key `"service"` to the
`ByServiceName` mode, and `""` or the sentinel `"_metric_ID"` to the
default mode, in a fresh (not started, not stopped) exporter state; any
other value yields a configuration error naming the unsupported value,
with no exporter value produced. -/
theorem C8_routing_key_construction (lb : loadBalancer) (rk : String) :
    newMetricsExporter (.ok lb) "service" = .ok ⟨lb, .svcRouting, false, 0⟩
    ∧ newMetricsExporter (.ok lb) "" = .ok ⟨lb, .traceIDRouting, false, 0⟩
    ∧ newMetricsExporter (.ok lb) "_metric_ID"
      = .ok ⟨lb, .traceIDRouting, false, 0⟩
    ∧ (rk ≠ "service" → rk ≠ "" → rk ≠ "_metric_ID" →
      newMetricsExporter (.ok lb) rk
        = .error ("unsupported routing_key: " ++ rk)) := by
  refine ⟨rfl, rfl, rfl, ?_⟩
  intro h1 h2 h3
  simp only [newMetricsExporter]
  rw [if_neg h1, if_neg (not_or.mpr ⟨h3, h2⟩)]

/-- Witness for C8: the unsupported key `"bogus"` fails construction
with an error naming it, while `"service"` constructs the
`ByServiceName` exporter. -/
theorem C8_routing_key_construction_witness :
    newMetricsExporter (.ok lbTrivial) "bogus"
      = .error ("unsupported routing_key: " ++ "bogus")
    ∧ newMetricsExporter (.ok lbTrivial) "service"
      = .ok ⟨lbTrivial, .svcRouting, false, 0⟩ := by
  have h := C8_routing_key_construction lbTrivial "bogus"
  exact ⟨h.2.2.2 (by decide) (by decide) (by decide), h.1⟩

/-- C4 is contradicted by the code: the ConsumeMetrics method performs
no registration on the shutdown wait mechanism — the Go body contains
no `shutdownWg.Add`/`Done` pair, so the receiver state (including the
`shutdownWg` counter that `Shutdown` waits on) is returned untouched —
and `Shutdown` merely sets the stop flag and returns nil, releasing no
load-balancer resources; its `Wait` on the never-incremented counter
cannot block on in-flight calls. -/
theorem C4_no_registration (e : metricExporterImp) (md : Metrics) :
    (e.ConsumeMetricsSt md).1.shutdownWg = e.shutdownWg
    ∧ (e.ConsumeMetricsSt md).1 = e
    ∧ e.Shutdown = ({ e with stopped := true }, none) := ⟨rfl, rfl, rfl⟩

end LB
